import Mathlib

/-!
Shallow embedding of the domain-model / wire-format conversion layer of the
frequenz electricity-trading client, together with theorems settling the
frozen claims about it.

The repository ships only the package root and its test suite; the modules
`_types.py` and `_client.py` that implement the conversion layer are not
present. Every definition below is therefore modelled from the
specification (spec.md sections 3, 4, 7) and from the behaviour prescribed
by the test suite, as noted in each doc comment.

Modelling conventions:
  - Python `Decimal` values are `Dec`: a mantissa/exponent pair
    (value = mantissa * 10 ^ exponent, matching Python's internal
    representation) or the special values NaN / Infinity.  The wire format
    transports a decimal as its exact string rendering, which is lossless,
    so wire messages carry `Dec` directly.
  - Python `datetime` values are `PyDatetime`: wall-clock seconds since the
    epoch plus an optional UTC offset in seconds (`none` = naive).
  - Protobuf enum constants are `Nat` wire values; protobuf message types
    are `...Pb` structures, with `Option` fields where the wire field has
    explicit presence and plain fields for scalars.
  - Raising `ValueError` / `AssertionError` is returning
    `Except.error .invalidInput` / `Except.error .assertionFailure`.
-/

namespace ElectricityTrading

/-- Modelled from the spec: error taxonomy of section 7.  `invalidInput` is
the recoverable `InvalidInput` kind (Python `ValueError`), `assertionFailure`
the programmer-error kind (Python `AssertionError`). -/
inductive Err where
  | invalidInput
  | assertionFailure
deriving DecidableEq, Repr

/-- Decidable equality of `Except` results, so that claims can be evaluated
on concrete inputs. -/
instance {ε α : Type} [DecidableEq ε] [DecidableEq α] :
    DecidableEq (Except ε α) := fun x y =>
  match x, y with
  | .ok a, .ok b =>
      if h : a = b then .isTrue (by rw [h])
      else .isFalse (by intro hh; cases hh; exact h rfl)
  | .ok _, .error _ => .isFalse (by intro hh; cases hh)
  | .error _, .ok _ => .isFalse (by intro hh; cases hh)
  | .error e, .error f =>
      if h : e = f then .isTrue (by rw [h])
      else .isFalse (by intro hh; cases hh; exact h rfl)

/-- Modelled from the spec: an arbitrary-precision decimal value, as Python's
`Decimal` represents it (sign/digits/exponent, or NaN, or +-Infinity).
`num m e` denotes the number `m * 10 ^ e`. -/
inductive Dec where
  | num (mantissa : Int) (exponent : Int)
  | nan
  | inf (negative : Bool)
deriving DecidableEq, Repr

/-- Executable check that `m * 10 ^ (e + places)` is an integer: true when the
exponent is non-negative, otherwise when the remaining power of ten divides
the mantissa. -/
def scaledIsInteger (m e places : Int) : Bool :=
  if 0 ≤ e + places then true
  else m % (10 : Int) ^ (-(e + places)).toNat == 0

/-- Modelled from the spec: the decimal-precision check of section 4.1
(`validate_decimal_places` in `_client.py`, exercised by
`test_validate_decimal_places.py`).  A negative `decimal_places` is a
programmer error (assertion failure); NaN and infinite values, and values
whose scaling by `10 ^ decimal_places` is not an integer, are invalid
input. -/
def validate_decimal_places (value : Dec) (decimal_places : Int)
    (field_name : String) : Except Err Unit :=
  if decimal_places < 0 then .error .assertionFailure
  else
    match value with
    | .nan => .error .invalidInput
    | .inf _ => .error .invalidInput
    | .num m e =>
        if scaledIsInteger m e decimal_places then .ok ()
        else .error .invalidInput

/-- Modelled from the spec: a Python `datetime` as the conversion layer sees
it: a wall-clock reading (seconds since the epoch of the displayed fields)
plus an optional UTC offset in seconds; `none` means a naive timestamp.  The
denoted absolute instant is `wallSeconds - offset`. -/
structure PyDatetime where
  wallSeconds : Int
  utcOffset : Option Int
deriving DecidableEq, Repr

/-- The `.hour` attribute of the wall-clock reading. -/
def PyDatetime.hour (d : PyDatetime) : Int :=
  d.wallSeconds / 3600 % 24

/-- Whether the datetime carries the UTC timezone. -/
def PyDatetime.isUtc (d : PyDatetime) : Bool :=
  decide (d.utcOffset = some 0)

/-- Modelled from the spec: the timezone check of section 4.1 — a naive
timestamp is rejected with `InvalidInput`; an aware timestamp is normalized
to UTC (`astimezone(timezone.utc)`), preserving the absolute instant. -/
def PyDatetime.toUtc (d : PyDatetime) : Except Err PyDatetime :=
  match d.utcOffset with
  | none => .error .invalidInput
  | some o => .ok ⟨d.wallSeconds - o, some 0⟩

/-- Absolute instant denoted by an aware datetime (`datetime.timestamp()`). -/
def PyDatetime.epochSeconds (d : PyDatetime) : Int :=
  d.wallSeconds - d.utcOffset.getD 0

/-- Wire `google.protobuf.Timestamp` (seconds since the epoch, UTC). -/
structure TimestampPb where
  seconds : Int
deriving DecidableEq, Repr

/-- Conversion of an aware datetime to a wire timestamp. -/
def PyDatetime.to_pb (d : PyDatetime) : TimestampPb :=
  ⟨d.epochSeconds⟩

/-- Conversion of a wire timestamp to a UTC datetime. -/
def PyDatetime.from_pb (t : TimestampPb) : PyDatetime :=
  ⟨t.seconds, some 0⟩

/-- Modelled from the spec: the enumerated delivery-duration buckets
(section 3; the 5-minute bucket is prescribed by the test suite, which
constructs 5-minute delivery periods successfully). -/
inductive DeliveryDuration where
  | unspecified
  | minutes5
  | minutes15
  | minutes30
  | minutes60
deriving DecidableEq, Repr

/-- Wire constants of the delivery-duration enum. -/
def DeliveryDuration.to_pb : DeliveryDuration → Nat
  | .unspecified => 0
  | .minutes5 => 1
  | .minutes15 => 2
  | .minutes30 => 3
  | .minutes60 => 4

/-- Bucket lookup for a duration given in seconds; `none` when the duration
matches no enumerated bucket. -/
def DeliveryDuration.fromTimedelta (seconds : Int) : Option DeliveryDuration :=
  if seconds = 300 then some .minutes5
  else if seconds = 900 then some .minutes15
  else if seconds = 1800 then some .minutes30
  else if seconds = 3600 then some .minutes60
  else none

/-- Duration in seconds denoted by a bucket (`none` for `unspecified`). -/
def DeliveryDuration.toTimedelta : DeliveryDuration → Option Int
  | .unspecified => none
  | .minutes5 => some 300
  | .minutes15 => some 900
  | .minutes30 => some 1800
  | .minutes60 => some 3600

/-- Conversion of a wire delivery-duration constant to the domain enum;
a value outside the known constants is invalid input. -/
def DeliveryDuration.from_pb (n : Nat) : Except Err DeliveryDuration :=
  match n with
  | 0 => .ok .unspecified
  | 1 => .ok .minutes5
  | 2 => .ok .minutes15
  | 3 => .ok .minutes30
  | 4 => .ok .minutes60
  | _ => .error .invalidInput

/-- Modelled from the spec: a delivery period (section 3) — a timezone-aware
start normalized to UTC at construction, and a duration (seconds) that must
match an enumerated bucket. -/
structure DeliveryPeriod where
  start : PyDatetime
  duration : Int
deriving DecidableEq, Repr

/-- Modelled from the spec: the `DeliveryPeriod` constructor — rejects naive
start timestamps, normalizes aware ones to UTC, and rejects durations that
match no enumerated bucket. -/
def DeliveryPeriod.new (start : PyDatetime) (duration : Int) :
    Except Err DeliveryPeriod :=
  match start.toUtc with
  | .error e => .error e
  | .ok s =>
      match DeliveryDuration.fromTimedelta duration with
      | some _ => .ok ⟨s, duration⟩
      | none => .error .invalidInput

/-- Well-formedness of a delivery period: the invariant established by its
constructor (start stored in UTC, duration in a bucket). -/
def DeliveryPeriod.wf (dp : DeliveryPeriod) : Bool :=
  dp.start.isUtc && (DeliveryDuration.fromTimedelta dp.duration).isSome

/-- Wire `DeliveryPeriod` message. -/
structure DeliveryPeriodPb where
  start : TimestampPb
  duration : Nat
deriving DecidableEq, Repr

/-- Conversion of a delivery period to its wire message. -/
def DeliveryPeriod.to_pb (dp : DeliveryPeriod) : DeliveryPeriodPb :=
  ⟨dp.start.to_pb,
   ((DeliveryDuration.fromTimedelta dp.duration).getD .unspecified).to_pb⟩

/-- Conversion of a wire delivery-period message back to the domain type. -/
def DeliveryPeriod.from_pb (pb : DeliveryPeriodPb) : Except Err DeliveryPeriod :=
  match DeliveryDuration.from_pb pb.duration with
  | .error e => .error e
  | .ok d =>
      match d.toTimedelta with
      | some secs => .ok ⟨PyDatetime.from_pb pb.start, secs⟩
      | none => .error .invalidInput

/-- Modelled from the spec: the currency enum (section 4.1), one-to-one with
the wire constants, with an explicit `unspecified` variant. -/
inductive Currency where
  | unspecified
  | usd
  | cad
  | eur
  | gbp
  | chf
deriving DecidableEq, Repr

/-- Wire constants of the currency enum. -/
def Currency.to_pb : Currency → Nat
  | .unspecified => 0
  | .usd => 1
  | .cad => 2
  | .eur => 3
  | .gbp => 4
  | .chf => 5

/-- Conversion of a wire currency constant to the domain enum; unrecognized
values map to `unspecified`. -/
def Currency.from_pb (n : Nat) : Currency :=
  match n with
  | 1 => .usd
  | 2 => .cad
  | 3 => .eur
  | 4 => .gbp
  | 5 => .chf
  | _ => .unspecified

/-- Modelled from the spec: the market-side enum (buy / sell). -/
inductive MarketSide where
  | unspecified
  | buy
  | sell
deriving DecidableEq, Repr

/-- Wire constants of the market-side enum. -/
def MarketSide.to_pb : MarketSide → Nat
  | .unspecified => 0
  | .buy => 1
  | .sell => 2

/-- Conversion of a wire market-side constant to the domain enum;
unrecognized values map to `unspecified`. -/
def MarketSide.from_pb (n : Nat) : MarketSide :=
  match n with
  | 1 => .buy
  | 2 => .sell
  | _ => .unspecified

/-- Modelled from the spec: the order-type enum (`LIMIT`, ...). -/
inductive OrderType where
  | unspecified
  | limit
  | stopLimit
  | iceberg
deriving DecidableEq, Repr

/-- Wire constants of the order-type enum. -/
def OrderType.to_pb : OrderType → Nat
  | .unspecified => 0
  | .limit => 1
  | .stopLimit => 2
  | .iceberg => 3

/-- Conversion of a wire order-type constant to the domain enum;
unrecognized values map to `unspecified`. -/
def OrderType.from_pb (n : Nat) : OrderType :=
  match n with
  | 1 => .limit
  | 2 => .stopLimit
  | 3 => .iceberg
  | _ => .unspecified

/-- Modelled from the spec: the order-state enum. -/
inductive OrderState where
  | unspecified
  | pending
  | active
  | canceled
  | expired
  | failed
  | filled
deriving DecidableEq, Repr

/-- Wire constants of the order-state enum. -/
def OrderState.to_pb : OrderState → Nat
  | .unspecified => 0
  | .pending => 1
  | .active => 2
  | .canceled => 3
  | .expired => 4
  | .failed => 5
  | .filled => 6

/-- Conversion of a wire order-state constant to the domain enum;
unrecognized values map to `unspecified`. -/
def OrderState.from_pb (n : Nat) : OrderState :=
  match n with
  | 1 => .pending
  | 2 => .active
  | 3 => .canceled
  | 4 => .expired
  | 5 => .failed
  | 6 => .filled
  | _ => .unspecified

/-- Modelled from the spec: the trade-state enum. -/
inductive TradeState where
  | unspecified
  | active
  | canceled
  | recalled
deriving DecidableEq, Repr

/-- Wire constants of the trade-state enum. -/
def TradeState.to_pb : TradeState → Nat
  | .unspecified => 0
  | .active => 1
  | .canceled => 2
  | .recalled => 3

/-- Conversion of a wire trade-state constant to the domain enum;
unrecognized values map to `unspecified`. -/
def TradeState.from_pb (n : Nat) : TradeState :=
  match n with
  | 1 => .active
  | 2 => .canceled
  | 3 => .recalled
  | _ => .unspecified

/-- Modelled from the spec: the order-execution-option enum (all-or-nothing,
fill-or-kill, immediate-or-cancel). -/
inductive OrderExecutionOption where
  | unspecified
  | aon
  | fok
  | ioc
deriving DecidableEq, Repr

/-- Wire constants of the execution-option enum. -/
def OrderExecutionOption.to_pb : OrderExecutionOption → Nat
  | .unspecified => 0
  | .aon => 1
  | .fok => 2
  | .ioc => 3

/-- Conversion of a wire execution-option constant to the domain enum;
unrecognized values map to `unspecified`. -/
def OrderExecutionOption.from_pb (n : Nat) : OrderExecutionOption :=
  match n with
  | 1 => .aon
  | 2 => .fok
  | 3 => .ioc
  | _ => .unspecified

/-- Modelled from the spec: the energy-market code-type enum (market-code
standards such as the European EIC). -/
inductive EnergyMarketCodeType where
  | unspecified
  | europeEic
  | usNerc
deriving DecidableEq, Repr

/-- Wire constants of the code-type enum. -/
def EnergyMarketCodeType.to_pb : EnergyMarketCodeType → Nat
  | .unspecified => 0
  | .europeEic => 1
  | .usNerc => 2

/-- Conversion of a wire code-type constant to the domain enum; unrecognized
values map to `unspecified`. -/
def EnergyMarketCodeType.from_pb (n : Nat) : EnergyMarketCodeType :=
  match n with
  | 1 => .europeEic
  | 2 => .usNerc
  | _ => .unspecified

/-- Modelled from the spec: the state-reason enum of an order's state
detail. -/
inductive StateReason where
  | unspecified
  | add
  | modify
  | delete
  | fullExecution
  | partialExecution
deriving DecidableEq, Repr

/-- Wire constants of the state-reason enum. -/
def StateReason.to_pb : StateReason → Nat
  | .unspecified => 0
  | .add => 1
  | .modify => 2
  | .delete => 3
  | .fullExecution => 4
  | .partialExecution => 5

/-- Conversion of a wire state-reason constant to the domain enum;
unrecognized values map to `unspecified`. -/
def StateReason.from_pb (n : Nat) : StateReason :=
  match n with
  | 1 => .add
  | 2 => .modify
  | 3 => .delete
  | 4 => .fullExecution
  | 5 => .partialExecution
  | _ => .unspecified

/-- Modelled from the spec: the market-actor enum of an order's state
detail. -/
inductive MarketActor where
  | unspecified
  | user
  | marketOperator
  | system
deriving DecidableEq, Repr

/-- Wire constants of the market-actor enum. -/
def MarketActor.to_pb : MarketActor → Nat
  | .unspecified => 0
  | .user => 1
  | .marketOperator => 2
  | .system => 3

/-- Conversion of a wire market-actor constant to the domain enum;
unrecognized values map to `unspecified`. -/
def MarketActor.from_pb (n : Nat) : MarketActor :=
  match n with
  | 1 => .user
  | 2 => .marketOperator
  | 3 => .system
  | _ => .unspecified

/-- Modelled from the spec: a delivery area (section 3) — a code string and a
code-type enum, with the invariant that the code is non-empty whenever a
code type is specified. -/
structure DeliveryArea where
  code : String
  code_type : EnergyMarketCodeType
deriving DecidableEq, Repr

/-- Modelled from the spec: the `DeliveryArea` constructor, enforcing the
non-empty-code invariant of the data-model table. -/
def DeliveryArea.new (code : String) (code_type : EnergyMarketCodeType) :
    Except Err DeliveryArea :=
  if code_type ≠ .unspecified ∧ code = "" then .error .invalidInput
  else .ok ⟨code, code_type⟩

/-- Well-formedness of a delivery area: the invariant established by its
constructor. -/
def DeliveryArea.wf (a : DeliveryArea) : Bool :=
  decide (a.code_type = .unspecified ∨ a.code ≠ "")

/-- Wire `DeliveryArea` message. -/
structure DeliveryAreaPb where
  code : String
  code_type : Nat
deriving DecidableEq, Repr

/-- Conversion of a delivery area to its wire message. -/
def DeliveryArea.to_pb (a : DeliveryArea) : DeliveryAreaPb :=
  ⟨a.code, a.code_type.to_pb⟩

/-- Conversion of a wire delivery-area message back to the domain type,
through the validating constructor. -/
def DeliveryArea.from_pb (pb : DeliveryAreaPb) : Except Err DeliveryArea :=
  DeliveryArea.new pb.code (EnergyMarketCodeType.from_pb pb.code_type)

/-- Modelled from the spec: a price — decimal amount and currency. -/
structure Price where
  amount : Dec
  currency : Currency
deriving DecidableEq, Repr

/-- Wire `Price` message; the amount travels as a lossless decimal string,
modelled as the decimal value itself. -/
structure PricePb where
  amount : Dec
  currency : Nat
deriving DecidableEq, Repr

/-- Conversion of a price to its wire message. -/
def Price.to_pb (p : Price) : PricePb :=
  ⟨p.amount, p.currency.to_pb⟩

/-- Conversion of a wire price message back to the domain type. -/
def Price.from_pb (pb : PricePb) : Price :=
  ⟨pb.amount, Currency.from_pb pb.currency⟩

/-- Modelled from the spec: an energy quantity in MWh. -/
structure Energy where
  mwh : Dec
deriving DecidableEq, Repr

/-- Wire `Energy` message. -/
structure EnergyPb where
  mwh : Dec
deriving DecidableEq, Repr

/-- Conversion of an energy quantity to its wire message. -/
def Energy.to_pb (e : Energy) : EnergyPb :=
  ⟨e.mwh⟩

/-- Conversion of a wire energy message back to the domain type. -/
def Energy.from_pb (pb : EnergyPb) : Energy :=
  ⟨pb.mwh⟩

/-- Modelled from the spec: an order (section 3) — delivery area and period,
order type, side, price, quantity, and the optional execution option,
validity window and tag. -/
structure Order where
  delivery_area : DeliveryArea
  delivery_period : DeliveryPeriod
  type : OrderType
  side : MarketSide
  price : Price
  quantity : Energy
  execution_option : Option OrderExecutionOption := none
  valid_until : Option PyDatetime := none
  tag : Option String := none
deriving DecidableEq, Repr

/-- Well-formedness of an order: its components satisfy their constructors'
invariants and any validity window is stored in UTC. -/
def Order.wf (o : Order) : Bool :=
  o.delivery_area.wf && o.delivery_period.wf
    && o.valid_until.all PyDatetime.isUtc

/-- Wire `Order` message; optional fields have explicit presence. -/
structure OrderPb where
  delivery_area : DeliveryAreaPb
  delivery_period : DeliveryPeriodPb
  type : Nat
  side : Nat
  price : PricePb
  quantity : EnergyPb
  execution_option : Option Nat := none
  valid_until : Option TimestampPb := none
  tag : Option String := none
deriving DecidableEq, Repr

/-- Conversion of an order to its wire message; absent optional fields stay
absent. -/
def Order.to_pb (o : Order) : OrderPb :=
  { delivery_area := o.delivery_area.to_pb
    delivery_period := o.delivery_period.to_pb
    type := o.type.to_pb
    side := o.side.to_pb
    price := o.price.to_pb
    quantity := o.quantity.to_pb
    execution_option := o.execution_option.map OrderExecutionOption.to_pb
    valid_until := o.valid_until.map PyDatetime.to_pb
    tag := o.tag }

/-- Conversion of a wire order message back to the domain type. -/
def Order.from_pb (pb : OrderPb) : Except Err Order :=
  match DeliveryArea.from_pb pb.delivery_area with
  | .error e => .error e
  | .ok area =>
  match DeliveryPeriod.from_pb pb.delivery_period with
  | .error e => .error e
  | .ok period =>
  .ok
    { delivery_area := area
      delivery_period := period
      type := OrderType.from_pb pb.type
      side := MarketSide.from_pb pb.side
      price := Price.from_pb pb.price
      quantity := Energy.from_pb pb.quantity
      execution_option := pb.execution_option.map OrderExecutionOption.from_pb
      valid_until := pb.valid_until.map PyDatetime.from_pb
      tag := pb.tag }

/-- Modelled from the spec: a private trade (section 3). -/
structure Trade where
  id : Nat
  order_id : Nat
  side : MarketSide
  execution_time : PyDatetime
  delivery_area : DeliveryArea
  delivery_period : DeliveryPeriod
  price : Price
  quantity : Energy
  state : TradeState
deriving DecidableEq, Repr

/-- Well-formedness of a trade. -/
def Trade.wf (t : Trade) : Bool :=
  t.execution_time.isUtc && t.delivery_area.wf && t.delivery_period.wf

/-- Wire `Trade` message. -/
structure TradePb where
  id : Nat
  order_id : Nat
  side : Nat
  execution_time : TimestampPb
  delivery_area : DeliveryAreaPb
  delivery_period : DeliveryPeriodPb
  price : PricePb
  quantity : EnergyPb
  state : Nat
deriving DecidableEq, Repr

/-- Conversion of a trade to its wire message. -/
def Trade.to_pb (t : Trade) : TradePb :=
  { id := t.id
    order_id := t.order_id
    side := t.side.to_pb
    execution_time := t.execution_time.to_pb
    delivery_area := t.delivery_area.to_pb
    delivery_period := t.delivery_period.to_pb
    price := t.price.to_pb
    quantity := t.quantity.to_pb
    state := t.state.to_pb }

/-- Conversion of a wire trade message back to the domain type. -/
def Trade.from_pb (pb : TradePb) : Except Err Trade :=
  match DeliveryArea.from_pb pb.delivery_area with
  | .error e => .error e
  | .ok area =>
  match DeliveryPeriod.from_pb pb.delivery_period with
  | .error e => .error e
  | .ok period =>
  .ok
    { id := pb.id
      order_id := pb.order_id
      side := MarketSide.from_pb pb.side
      execution_time := PyDatetime.from_pb pb.execution_time
      delivery_area := area
      delivery_period := period
      price := Price.from_pb pb.price
      quantity := Energy.from_pb pb.quantity
      state := TradeState.from_pb pb.state }

/-- Modelled from the spec: an anonymized public trade (section 3), carrying
both buy- and sell-side delivery areas. -/
structure PublicTrade where
  public_trade_id : Nat
  buy_delivery_area : DeliveryArea
  sell_delivery_area : DeliveryArea
  delivery_period : DeliveryPeriod
  execution_time : PyDatetime
  price : Price
  quantity : Energy
  state : TradeState
deriving DecidableEq, Repr

/-- Well-formedness of a public trade. -/
def PublicTrade.wf (t : PublicTrade) : Bool :=
  t.execution_time.isUtc && t.buy_delivery_area.wf
    && t.sell_delivery_area.wf && t.delivery_period.wf

/-- Wire `PublicTrade` message (the identifier travels as the field `id`). -/
structure PublicTradePb where
  id : Nat
  buy_delivery_area : DeliveryAreaPb
  sell_delivery_area : DeliveryAreaPb
  delivery_period : DeliveryPeriodPb
  execution_time : TimestampPb
  price : PricePb
  quantity : EnergyPb
  state : Nat
deriving DecidableEq, Repr

/-- Conversion of a public trade to its wire message. -/
def PublicTrade.to_pb (t : PublicTrade) : PublicTradePb :=
  { id := t.public_trade_id
    buy_delivery_area := t.buy_delivery_area.to_pb
    sell_delivery_area := t.sell_delivery_area.to_pb
    delivery_period := t.delivery_period.to_pb
    execution_time := t.execution_time.to_pb
    price := t.price.to_pb
    quantity := t.quantity.to_pb
    state := t.state.to_pb }

/-- Conversion of a wire public-trade message back to the domain type. -/
def PublicTrade.from_pb (pb : PublicTradePb) : Except Err PublicTrade :=
  match DeliveryArea.from_pb pb.buy_delivery_area with
  | .error e => .error e
  | .ok buyArea =>
  match DeliveryArea.from_pb pb.sell_delivery_area with
  | .error e => .error e
  | .ok sellArea =>
  match DeliveryPeriod.from_pb pb.delivery_period with
  | .error e => .error e
  | .ok period =>
  .ok
    { public_trade_id := pb.id
      buy_delivery_area := buyArea
      sell_delivery_area := sellArea
      delivery_period := period
      execution_time := PyDatetime.from_pb pb.execution_time
      price := Price.from_pb pb.price
      quantity := Energy.from_pb pb.quantity
      state := TradeState.from_pb pb.state }

/-- Modelled from the spec: the state detail of an order — state, state
reason and market actor. -/
structure StateDetail where
  state : OrderState
  state_reason : StateReason
  market_actor : MarketActor
deriving DecidableEq, Repr

/-- Wire `StateDetail` message. -/
structure StateDetailPb where
  state : Nat
  state_reason : Nat
  market_actor : Nat
deriving DecidableEq, Repr

/-- Conversion of a state detail to its wire message. -/
def StateDetail.to_pb (s : StateDetail) : StateDetailPb :=
  ⟨s.state.to_pb, s.state_reason.to_pb, s.market_actor.to_pb⟩

/-- Conversion of a wire state-detail message back to the domain type. -/
def StateDetail.from_pb (pb : StateDetailPb) : StateDetail :=
  ⟨OrderState.from_pb pb.state, StateReason.from_pb pb.state_reason,
   MarketActor.from_pb pb.market_actor⟩

/-- Modelled from the spec: an order detail (section 3) — the server's view
of an order, with create and modification times stored in UTC. -/
structure OrderDetail where
  order_id : Nat
  order : Order
  state_detail : StateDetail
  open_quantity : Energy
  filled_quantity : Energy
  create_time : PyDatetime
  modification_time : PyDatetime
deriving DecidableEq, Repr

/-- Modelled from the spec: the `OrderDetail` constructor — rejects naive
create/modification times and normalizes aware ones to UTC (the same
timezone rule as `DeliveryPeriod`). -/
def OrderDetail.new (order_id : Nat) (order : Order)
    (state_detail : StateDetail) (open_quantity filled_quantity : Energy)
    (create_time modification_time : PyDatetime) : Except Err OrderDetail :=
  match create_time.toUtc with
  | .error e => .error e
  | .ok ct =>
  match modification_time.toUtc with
  | .error e => .error e
  | .ok mt =>
  .ok
    { order_id, order, state_detail, open_quantity, filled_quantity
      create_time := ct
      modification_time := mt }

/-- Well-formedness of an order detail. -/
def OrderDetail.wf (d : OrderDetail) : Bool :=
  d.order.wf && d.create_time.isUtc && d.modification_time.isUtc

/-- Wire `OrderDetail` message. -/
structure OrderDetailPb where
  order_id : Nat
  order : OrderPb
  state_detail : StateDetailPb
  open_quantity : EnergyPb
  filled_quantity : EnergyPb
  create_time : TimestampPb
  modification_time : TimestampPb
deriving DecidableEq, Repr

/-- Conversion of an order detail to its wire message. -/
def OrderDetail.to_pb (d : OrderDetail) : OrderDetailPb :=
  { order_id := d.order_id
    order := d.order.to_pb
    state_detail := d.state_detail.to_pb
    open_quantity := d.open_quantity.to_pb
    filled_quantity := d.filled_quantity.to_pb
    create_time := d.create_time.to_pb
    modification_time := d.modification_time.to_pb }

/-- Conversion of a wire order-detail message back to the domain type. -/
def OrderDetail.from_pb (pb : OrderDetailPb) : Except Err OrderDetail :=
  match Order.from_pb pb.order with
  | .error e => .error e
  | .ok order =>
  .ok
    { order_id := pb.order_id
      order := order
      state_detail := StateDetail.from_pb pb.state_detail
      open_quantity := Energy.from_pb pb.open_quantity
      filled_quantity := Energy.from_pb pb.filled_quantity
      create_time := PyDatetime.from_pb pb.create_time
      modification_time := PyDatetime.from_pb pb.modification_time }

/-- Modelled from the spec: the gridpool order filter (section 3) — all
fields optional; an empty filter matches everything. -/
structure GridpoolOrderFilter where
  order_states : Option (List OrderState) := none
  side : Option MarketSide := none
  delivery_period : Option DeliveryPeriod := none
  delivery_area : Option DeliveryArea := none
  tag : Option String := none
deriving DecidableEq, Repr

/-- Well-formedness of a gridpool order filter: contained components are
well formed and a set state list is non-empty (an empty list is expressed by
leaving the field unset). -/
def GridpoolOrderFilter.wf (f : GridpoolOrderFilter) : Bool :=
  f.order_states.all (fun l => !l.isEmpty)
    && f.delivery_period.all DeliveryPeriod.wf
    && f.delivery_area.all DeliveryArea.wf

/-- Wire `GridpoolOrderFilter` message; `states` is a repeated field (an
absent list travels as the empty list), the rest have explicit presence. -/
structure GridpoolOrderFilterPb where
  states : List Nat := []
  side : Option Nat := none
  delivery_period : Option DeliveryPeriodPb := none
  delivery_area : Option DeliveryAreaPb := none
  tag : Option String := none
deriving DecidableEq, Repr

/-- Conversion of a gridpool order filter to its wire message; unset fields
serialize to the unset wire representation. -/
def GridpoolOrderFilter.to_pb (f : GridpoolOrderFilter) : GridpoolOrderFilterPb :=
  { states := (f.order_states.getD []).map OrderState.to_pb
    side := f.side.map MarketSide.to_pb
    delivery_period := f.delivery_period.map DeliveryPeriod.to_pb
    delivery_area := f.delivery_area.map DeliveryArea.to_pb
    tag := f.tag }

/-- Traversal of an optional wire component through a fallible decoder. -/
def decodeOpt {α β : Type} (f : α → Except Err β) :
    Option α → Except Err (Option β)
  | none => .ok none
  | some a =>
      match f a with
      | .error e => .error e
      | .ok b => .ok (some b)

/-- Conversion of a wire gridpool-order-filter message back to the domain
type; an empty repeated `states` field decodes to an unset field. -/
def GridpoolOrderFilter.from_pb (pb : GridpoolOrderFilterPb) :
    Except Err GridpoolOrderFilter :=
  match decodeOpt DeliveryPeriod.from_pb pb.delivery_period with
  | .error e => .error e
  | .ok period =>
  match decodeOpt DeliveryArea.from_pb pb.delivery_area with
  | .error e => .error e
  | .ok area =>
  .ok
    { order_states :=
        if pb.states.isEmpty then none
        else some (pb.states.map OrderState.from_pb)
      side := pb.side.map MarketSide.from_pb
      delivery_period := period
      delivery_area := area
      tag := pb.tag }

/-- Modelled from the spec: the public trade filter (section 3) — all fields
optional. -/
structure PublicTradeFilter where
  states : Option (List TradeState) := none
  buy_delivery_area : Option DeliveryArea := none
  sell_delivery_area : Option DeliveryArea := none
  delivery_period : Option DeliveryPeriod := none
deriving DecidableEq, Repr

/-- Well-formedness of a public trade filter. -/
def PublicTradeFilter.wf (f : PublicTradeFilter) : Bool :=
  f.states.all (fun l => !l.isEmpty)
    && f.buy_delivery_area.all DeliveryArea.wf
    && f.sell_delivery_area.all DeliveryArea.wf
    && f.delivery_period.all DeliveryPeriod.wf

/-- Wire `PublicTradeFilter` message. -/
structure PublicTradeFilterPb where
  states : List Nat := []
  buy_delivery_area : Option DeliveryAreaPb := none
  sell_delivery_area : Option DeliveryAreaPb := none
  delivery_period : Option DeliveryPeriodPb := none
deriving DecidableEq, Repr

/-- Conversion of a public trade filter to its wire message. -/
def PublicTradeFilter.to_pb (f : PublicTradeFilter) : PublicTradeFilterPb :=
  { states := (f.states.getD []).map TradeState.to_pb
    buy_delivery_area := f.buy_delivery_area.map DeliveryArea.to_pb
    sell_delivery_area := f.sell_delivery_area.map DeliveryArea.to_pb
    delivery_period := f.delivery_period.map DeliveryPeriod.to_pb }

/-- Conversion of a wire public-trade-filter message back to the domain
type. -/
def PublicTradeFilter.from_pb (pb : PublicTradeFilterPb) :
    Except Err PublicTradeFilter :=
  match decodeOpt DeliveryArea.from_pb pb.buy_delivery_area with
  | .error e => .error e
  | .ok buyArea =>
  match decodeOpt DeliveryArea.from_pb pb.sell_delivery_area with
  | .error e => .error e
  | .ok sellArea =>
  match decodeOpt DeliveryPeriod.from_pb pb.delivery_period with
  | .error e => .error e
  | .ok period =>
  .ok
    { states :=
        if pb.states.isEmpty then none
        else some (pb.states.map TradeState.from_pb)
      buy_delivery_area := buyArea
      sell_delivery_area := sellArea
      delivery_period := period }

/-- Modelled from the spec: the order update patch (section 3) — every field
optional; only explicitly set fields are transmitted. -/
structure UpdateOrder where
  price : Option Price := none
  quantity : Option Energy := none
  valid_until : Option PyDatetime := none
  execution_option : Option OrderExecutionOption := none
  tag : Option String := none
deriving DecidableEq, Repr

/-- Well-formedness of an update patch: any set validity window is stored in
UTC. -/
def UpdateOrder.wf (u : UpdateOrder) : Bool :=
  u.valid_until.all PyDatetime.isUtc

/-- Wire `UpdateOrder` patch message; every field has explicit presence. -/
structure UpdateOrderPb where
  price : Option PricePb := none
  quantity : Option EnergyPb := none
  valid_until : Option TimestampPb := none
  execution_option : Option Nat := none
  tag : Option String := none
deriving DecidableEq, Repr

/-- Number of fields marked present in a wire update patch (the length of
`ListFields()` on the protobuf message). -/
def UpdateOrderPb.presentFieldCount (pb : UpdateOrderPb) : Nat :=
  (if pb.price.isSome then 1 else 0)
    + (if pb.quantity.isSome then 1 else 0)
    + (if pb.valid_until.isSome then 1 else 0)
    + (if pb.execution_option.isSome then 1 else 0)
    + (if pb.tag.isSome then 1 else 0)

/-- Conversion of an update patch to its wire message; unset fields are not
encoded. -/
def UpdateOrder.to_pb (u : UpdateOrder) : UpdateOrderPb :=
  { price := u.price.map Price.to_pb
    quantity := u.quantity.map Energy.to_pb
    valid_until := u.valid_until.map PyDatetime.to_pb
    execution_option := u.execution_option.map OrderExecutionOption.to_pb
    tag := u.tag }

/-- Conversion of a wire update-patch message back to the domain type. -/
def UpdateOrder.from_pb (pb : UpdateOrderPb) : UpdateOrder :=
  { price := pb.price.map Price.from_pb
    quantity := pb.quantity.map Energy.from_pb
    valid_until := pb.valid_until.map PyDatetime.from_pb
    execution_option := pb.execution_option.map OrderExecutionOption.from_pb
    tag := pb.tag }

/-- Wire `CreateGridpoolOrderRequest` message. -/
structure CreateGridpoolOrderRequest where
  gridpool_id : Nat
  order : OrderPb
deriving DecidableEq, Repr

/-- Wire `CreateGridpoolOrderResponse` message. -/
structure CreateGridpoolOrderResponse where
  order_detail : OrderDetailPb
deriving DecidableEq, Repr

/-- Modelled from the spec: maximum number of decimal places of a price
(section 3, API-defined precision). -/
def PRECISION_DECIMAL_PRICE : Int := 2

/-- Modelled from the spec: maximum number of decimal places of an energy
quantity (section 3, API-defined precision). -/
def PRECISION_DECIMAL_QUANTITY : Int := 5

/-- Modelled from the spec: the create-order operation of the orchestration
layer (sections 4.2 and 7).  It validates the inputs, builds exactly one
wire request from their conversions, hands it to the unary-call
collaborator `stub`, and decodes the response into an `OrderDetail`.  The
first component of the result is the list of outbound requests, so that the
number of issued calls is part of the model; on a validation error no
request is issued. -/
def create_gridpool_order (gridpool_id : Nat) (delivery_area : DeliveryArea)
    (delivery_period : DeliveryPeriod) (order_type : OrderType)
    (side : MarketSide) (price : Price) (quantity : Energy)
    (execution_option : Option OrderExecutionOption)
    (stub : CreateGridpoolOrderRequest → CreateGridpoolOrderResponse) :
    List CreateGridpoolOrderRequest × Except Err OrderDetail :=
  match validate_decimal_places price.amount PRECISION_DECIMAL_PRICE "price",
      validate_decimal_places quantity.mwh PRECISION_DECIMAL_QUANTITY "quantity" with
  | .error e, _ => ([], .error e)
  | _, .error e => ([], .error e)
  | .ok _, .ok _ =>
      let order : Order :=
        { delivery_area, delivery_period, type := order_type, side, price
          quantity, execution_option }
      let req : CreateGridpoolOrderRequest := ⟨gridpool_id, order.to_pb⟩
      let resp := stub req
      ([req], OrderDetail.from_pb resp.order_detail)

/-- Round trip of the currency enum mapping. -/
theorem currency_from_to_pb (e : Currency) : Currency.from_pb e.to_pb = e := by
  cases e <;> rfl

theorem marketSide_from_to_pb (e : MarketSide) : MarketSide.from_pb e.to_pb = e := by
  cases e <;> rfl

theorem orderType_from_to_pb (e : OrderType) : OrderType.from_pb e.to_pb = e := by
  cases e <;> rfl

theorem orderState_from_to_pb (e : OrderState) : OrderState.from_pb e.to_pb = e := by
  cases e <;> rfl

theorem tradeState_from_to_pb (e : TradeState) : TradeState.from_pb e.to_pb = e := by
  cases e <;> rfl

theorem orderExecutionOption_from_to_pb (e : OrderExecutionOption) :
    OrderExecutionOption.from_pb e.to_pb = e := by
  cases e <;> rfl

theorem energyMarketCodeType_from_to_pb (e : EnergyMarketCodeType) :
    EnergyMarketCodeType.from_pb e.to_pb = e := by
  cases e <;> rfl

theorem stateReason_from_to_pb (e : StateReason) : StateReason.from_pb e.to_pb = e := by
  cases e <;> rfl

theorem marketActor_from_to_pb (e : MarketActor) : MarketActor.from_pb e.to_pb = e := by
  cases e <;> rfl

theorem deliveryDuration_from_to_pb (b : DeliveryDuration) :
    DeliveryDuration.from_pb b.to_pb = .ok b := by
  cases b <;> rfl

theorem deliveryDuration_toTimedelta_of_fromTimedelta (d : Int) (b : DeliveryDuration)
    (h : DeliveryDuration.fromTimedelta d = some b) : b.toTimedelta = some d := by
  unfold DeliveryDuration.fromTimedelta at h
  split_ifs at h <;> cases h <;> simp_all [DeliveryDuration.toTimedelta]

theorem pyDatetime_from_to_pb (t : PyDatetime) (h : t.isUtc = true) :
    PyDatetime.from_pb t.to_pb = t := by
  rcases t with ⟨w, tz⟩
  simp only [PyDatetime.isUtc, decide_eq_true_eq] at h
  subst h
  simp [PyDatetime.from_pb, PyDatetime.to_pb, PyDatetime.epochSeconds]

theorem price_roundtrip_pb (p : Price) : Price.from_pb p.to_pb = p := by
  rcases p with ⟨a, c⟩
  simp [Price.from_pb, Price.to_pb, currency_from_to_pb]

theorem energy_roundtrip_pb (e : Energy) : Energy.from_pb e.to_pb = e := rfl

theorem deliveryArea_roundtrip_pb (a : DeliveryArea) (h : a.wf = true) :
    DeliveryArea.from_pb a.to_pb = .ok a := by
  rcases a with ⟨code, ct⟩
  simp only [DeliveryArea.wf, decide_eq_true_eq] at h
  simp only [DeliveryArea.from_pb, DeliveryArea.to_pb, DeliveryArea.new,
    energyMarketCodeType_from_to_pb]
  rw [if_neg]
  tauto

theorem deliveryPeriod_roundtrip_pb (dp : DeliveryPeriod) (h : dp.wf = true) :
    DeliveryPeriod.from_pb dp.to_pb = .ok dp := by
  rcases dp with ⟨start, dur⟩
  simp only [DeliveryPeriod.wf, Bool.and_eq_true, Option.isSome_iff_exists] at h
  obtain ⟨hs, b, hb⟩ := h
  simp only [DeliveryPeriod.to_pb, DeliveryPeriod.from_pb, hb, Option.getD_some,
    deliveryDuration_from_to_pb]
  rw [deliveryDuration_toTimedelta_of_fromTimedelta dur b hb]
  simp [pyDatetime_from_to_pb start hs]


theorem optionMap_from_to {α β : Type} (f : α → β) (g : β → α)
    (h : ∀ a, g (f a) = a) (x : Option α) : (x.map f).map g = x := by
  cases x with
  | none => rfl
  | some a => simp [h]

theorem optionMapUtc_from_to (x : Option PyDatetime)
    (h : x.all PyDatetime.isUtc = true) :
    (x.map PyDatetime.to_pb).map PyDatetime.from_pb = x := by
  cases x with
  | none => rfl
  | some t => simp_all [Option.all, pyDatetime_from_to_pb]

theorem order_roundtrip_pb (o : Order) (h : o.wf = true) :
    Order.from_pb o.to_pb = .ok o := by
  simp only [Order.wf, Bool.and_eq_true] at h
  obtain ⟨⟨ha, hp⟩, hvu⟩ := h
  simp only [Order.to_pb, Order.from_pb, deliveryArea_roundtrip_pb _ ha,
    deliveryPeriod_roundtrip_pb _ hp]
  simp [orderType_from_to_pb, marketSide_from_to_pb, price_roundtrip_pb,
    energy_roundtrip_pb, optionMap_from_to _ _ orderExecutionOption_from_to_pb,
    optionMapUtc_from_to _ hvu]

theorem trade_roundtrip_pb (t : Trade) (h : t.wf = true) :
    Trade.from_pb t.to_pb = .ok t := by
  simp only [Trade.wf, Bool.and_eq_true] at h
  obtain ⟨⟨ht, ha⟩, hp⟩ := h
  simp only [Trade.to_pb, Trade.from_pb, deliveryArea_roundtrip_pb _ ha,
    deliveryPeriod_roundtrip_pb _ hp]
  simp [marketSide_from_to_pb, tradeState_from_to_pb, price_roundtrip_pb,
    energy_roundtrip_pb, pyDatetime_from_to_pb _ ht]

theorem publicTrade_roundtrip_pb (t : PublicTrade) (h : t.wf = true) :
    PublicTrade.from_pb t.to_pb = .ok t := by
  simp only [PublicTrade.wf, Bool.and_eq_true] at h
  obtain ⟨⟨⟨ht, hb⟩, hs⟩, hp⟩ := h
  simp only [PublicTrade.to_pb, PublicTrade.from_pb, deliveryArea_roundtrip_pb _ hb,
    deliveryArea_roundtrip_pb _ hs, deliveryPeriod_roundtrip_pb _ hp]
  simp [tradeState_from_to_pb, price_roundtrip_pb, energy_roundtrip_pb,
    pyDatetime_from_to_pb _ ht]

theorem stateDetail_roundtrip_pb (s : StateDetail) :
    StateDetail.from_pb s.to_pb = s := by
  rcases s with ⟨a, b, c⟩
  simp [StateDetail.from_pb, StateDetail.to_pb, orderState_from_to_pb,
    stateReason_from_to_pb, marketActor_from_to_pb]

theorem orderDetail_roundtrip_pb (d : OrderDetail) (h : d.wf = true) :
    OrderDetail.from_pb d.to_pb = .ok d := by
  simp only [OrderDetail.wf, Bool.and_eq_true] at h
  obtain ⟨⟨ho, hc⟩, hm⟩ := h
  simp only [OrderDetail.to_pb, OrderDetail.from_pb, order_roundtrip_pb _ ho]
  simp [stateDetail_roundtrip_pb, energy_roundtrip_pb,
    pyDatetime_from_to_pb _ hc, pyDatetime_from_to_pb _ hm]


theorem decodeOpt_map_ok {α β : Type} (f : β → Except Err α) (g : α → β)
    (x : Option α) (h : ∀ a, x = some a → f (g a) = .ok a) :
    decodeOpt f (x.map g) = .ok x := by
  cases x with
  | none => rfl
  | some a => simp [decodeOpt, h a rfl]

theorem listMap_from_to {α β : Type} (f : α → β) (g : β → α)
    (h : ∀ a, g (f a) = a) (l : List α) : (l.map f).map g = l := by
  induction l with
  | nil => rfl
  | cons a t ih => simp [h, ih]

theorem gridpoolOrderFilter_roundtrip_pb (f : GridpoolOrderFilter)
    (h : f.wf = true) : GridpoolOrderFilter.from_pb f.to_pb = .ok f := by
  rcases f with ⟨os, sd, dp, da, tg⟩
  simp only [GridpoolOrderFilter.wf, Bool.and_eq_true] at h
  obtain ⟨⟨hst, hp⟩, ha⟩ := h
  have hper : decodeOpt DeliveryPeriod.from_pb (dp.map DeliveryPeriod.to_pb)
      = .ok dp := by
    apply decodeOpt_map_ok
    intro a haeq
    apply deliveryPeriod_roundtrip_pb
    rw [haeq] at hp
    simpa [Option.all] using hp
  have harea : decodeOpt DeliveryArea.from_pb (da.map DeliveryArea.to_pb)
      = .ok da := by
    apply decodeOpt_map_ok
    intro a haeq
    apply deliveryArea_roundtrip_pb
    rw [haeq] at ha
    simpa [Option.all] using ha
  simp only [GridpoolOrderFilter.to_pb, GridpoolOrderFilter.from_pb, hper, harea]
  cases os with
  | none => simp [optionMap_from_to _ _ marketSide_from_to_pb]
  | some l =>
      simp only [Option.all] at hst
      have hl : l ≠ [] := by simpa [List.isEmpty_iff] using hst
      simp [Option.getD, listMap_from_to _ _ orderState_from_to_pb,
        optionMap_from_to _ _ marketSide_from_to_pb, List.map_eq_nil_iff, hl]


theorem publicTradeFilter_roundtrip_pb (f : PublicTradeFilter)
    (h : f.wf = true) : PublicTradeFilter.from_pb f.to_pb = .ok f := by
  rcases f with ⟨st, ba, sa, dp⟩
  simp only [PublicTradeFilter.wf, Bool.and_eq_true] at h
  obtain ⟨⟨⟨hst, hb⟩, hs⟩, hp⟩ := h
  have hbuy : decodeOpt DeliveryArea.from_pb (ba.map DeliveryArea.to_pb)
      = .ok ba := by
    apply decodeOpt_map_ok
    intro a haeq
    apply deliveryArea_roundtrip_pb
    rw [haeq] at hb
    simpa [Option.all] using hb
  have hsell : decodeOpt DeliveryArea.from_pb (sa.map DeliveryArea.to_pb)
      = .ok sa := by
    apply decodeOpt_map_ok
    intro a haeq
    apply deliveryArea_roundtrip_pb
    rw [haeq] at hs
    simpa [Option.all] using hs
  have hper : decodeOpt DeliveryPeriod.from_pb (dp.map DeliveryPeriod.to_pb)
      = .ok dp := by
    apply decodeOpt_map_ok
    intro a haeq
    apply deliveryPeriod_roundtrip_pb
    rw [haeq] at hp
    simpa [Option.all] using hp
  simp only [PublicTradeFilter.to_pb, PublicTradeFilter.from_pb, hbuy, hsell, hper]
  cases st with
  | none => simp
  | some l =>
      simp only [Option.all] at hst
      have hl : l ≠ [] := by simpa [List.isEmpty_iff] using hst
      simp [Option.getD, listMap_from_to _ _ tradeState_from_to_pb,
        List.map_eq_nil_iff, hl]

theorem updateOrder_roundtrip_pb (u : UpdateOrder) (h : u.wf = true) :
    UpdateOrder.from_pb u.to_pb = u := by
  rcases u with ⟨pr, qt, vu, eo, tg⟩
  simp only [UpdateOrder.wf] at h
  simp [UpdateOrder.from_pb, UpdateOrder.to_pb,
    optionMap_from_to _ _ price_roundtrip_pb,
    optionMap_from_to _ _ energy_roundtrip_pb,
    optionMap_from_to _ _ orderExecutionOption_from_to_pb,
    optionMapUtc_from_to _ h]


theorem scaledIsInteger_iff (m e p : Int) :
    scaledIsInteger m e p = true ↔
      ∃ z : Int, (m : ℚ) * (10 : ℚ) ^ (e + p) = (z : ℚ) := by
  unfold scaledIsInteger
  by_cases hk : 0 ≤ e + p
  · simp only [hk, if_true, true_iff]
    refine ⟨m * 10 ^ (e + p).toNat, ?_⟩
    push_cast
    rw [← zpow_natCast (10 : ℚ) (e + p).toNat, Int.toNat_of_nonneg hk]
  · simp only [hk, if_false, beq_iff_eq]
    have h10 : (10 : ℚ) ^ (e + p) = ((10 : ℚ) ^ (-(e + p)).toNat)⁻¹ := by
      rw [← zpow_natCast (10 : ℚ) (-(e + p)).toNat, ← zpow_neg]
      congr 1
      omega
    have hpow : (0 : ℚ) < (10 : ℚ) ^ (-(e + p)).toNat := by positivity
    have hne : ((10 : ℚ) ^ (-(e + p)).toNat) ≠ 0 := ne_of_gt hpow
    constructor
    · intro hmod
      have hdvd : (10 : Int) ^ (-(e + p)).toNat ∣ m :=
        Int.dvd_of_emod_eq_zero hmod
      obtain ⟨c, hc⟩ := hdvd
      refine ⟨c, ?_⟩
      subst hc
      rw [h10]
      push_cast
      field_simp
    · rintro ⟨z, hz⟩
      rw [h10] at hz
      have hq := congrArg (fun x : ℚ => x * (10 : ℚ) ^ (-(e + p)).toNat) hz
      simp only [] at hq
      rw [mul_assoc, inv_mul_cancel₀ hne, mul_one] at hq
      have hmz : m = z * (10 : Int) ^ (-(e + p)).toNat := by exact_mod_cast hq
      exact Int.emod_eq_zero_of_dvd ⟨z, by linarith⟩



theorem deliveryPeriod_new_naive (start : PyDatetime) (d : Int)
    (h : start.utcOffset = none) :
    DeliveryPeriod.new start d = .error .invalidInput := by
  unfold DeliveryPeriod.new PyDatetime.toUtc
  rw [h]

theorem deliveryPeriod_new_aware (start : PyDatetime) (o d : Int)
    (h : start.utcOffset = some o) :
    DeliveryPeriod.new start d =
      match DeliveryDuration.fromTimedelta d with
      | some _ => .ok ⟨⟨start.wallSeconds - o, some 0⟩, d⟩
      | none => .error .invalidInput := by
  unfold DeliveryPeriod.new PyDatetime.toUtc
  rw [h]

theorem currency_from_pb_unknown (n : Nat) (h : n ∉ [0, 1, 2, 3, 4, 5]) :
    Currency.from_pb n = .unspecified := by
  rcases n with _|_|_|_|_|_|n
  · simp at h
  · simp at h
  · simp at h
  · simp at h
  · simp at h
  · simp at h
  · rfl

theorem marketSide_from_pb_unknown (n : Nat) (h : n ∉ [0, 1, 2]) :
    MarketSide.from_pb n = .unspecified := by
  rcases n with _|_|_|n
  · simp at h
  · simp at h
  · simp at h
  · rfl

theorem orderType_from_pb_unknown (n : Nat) (h : n ∉ [0, 1, 2, 3]) :
    OrderType.from_pb n = .unspecified := by
  rcases n with _|_|_|_|n
  · simp at h
  · simp at h
  · simp at h
  · simp at h
  · rfl

theorem orderState_from_pb_unknown (n : Nat) (h : n ∉ [0, 1, 2, 3, 4, 5, 6]) :
    OrderState.from_pb n = .unspecified := by
  rcases n with _|_|_|_|_|_|_|n
  · simp at h
  · simp at h
  · simp at h
  · simp at h
  · simp at h
  · simp at h
  · simp at h
  · rfl

theorem tradeState_from_pb_unknown (n : Nat) (h : n ∉ [0, 1, 2, 3]) :
    TradeState.from_pb n = .unspecified := by
  rcases n with _|_|_|_|n
  · simp at h
  · simp at h
  · simp at h
  · simp at h
  · rfl

theorem orderExecutionOption_from_pb_unknown (n : Nat) (h : n ∉ [0, 1, 2, 3]) :
    OrderExecutionOption.from_pb n = .unspecified := by
  rcases n with _|_|_|_|n
  · simp at h
  · simp at h
  · simp at h
  · simp at h
  · rfl

theorem energyMarketCodeType_from_pb_unknown (n : Nat) (h : n ∉ [0, 1, 2]) :
    EnergyMarketCodeType.from_pb n = .unspecified := by
  rcases n with _|_|_|n
  · simp at h
  · simp at h
  · simp at h
  · rfl

theorem stateReason_from_pb_unknown (n : Nat) (h : n ∉ [0, 1, 2, 3, 4, 5]) :
    StateReason.from_pb n = .unspecified := by
  rcases n with _|_|_|_|_|_|n
  · simp at h
  · simp at h
  · simp at h
  · simp at h
  · simp at h
  · simp at h
  · rfl

theorem marketActor_from_pb_unknown (n : Nat) (h : n ∉ [0, 1, 2, 3]) :
    MarketActor.from_pb n = .unspecified := by
  rcases n with _|_|_|_|n
  · simp at h
  · simp at h
  · simp at h
  · simp at h
  · rfl



/-- Sample instances mirroring the constants of the test suite, used to
evaluate the claims on concrete inputs. -/
def sampleStart : PyDatetime := ⟨1672574400, some 0⟩

/-- Sample 15-minute delivery period (test constant). -/
def samplePeriod : DeliveryPeriod := ⟨sampleStart, 900⟩

/-- Sample delivery area (test constant). -/
def sampleArea : DeliveryArea := ⟨"XYZ", .europeEic⟩

/-- Sample price of 100.00 USD (test constant). -/
def samplePrice : Price := ⟨.num 10000 (-2), .usd⟩

/-- Sample energy of 5.00 MWh (test constant). -/
def sampleEnergy : Energy := ⟨.num 500 (-2)⟩

/-- Sample order (test constant `ORDER`). -/
def sampleOrder : Order :=
  { delivery_area := sampleArea, delivery_period := samplePeriod,
    type := .limit, side := .buy, price := samplePrice,
    quantity := sampleEnergy }

/-- Sample trade (test constant `TRADE`). -/
def sampleTrade : Trade :=
  { id := 1, order_id := 2, side := .buy,
    execution_time := ⟨1704276000, some 0⟩, delivery_area := sampleArea,
    delivery_period := samplePeriod, price := samplePrice,
    quantity := sampleEnergy, state := .active }

/-- Sample public trade (test constant `PUBLIC_TRADE`). -/
def samplePublicTrade : PublicTrade :=
  { public_trade_id := 1, buy_delivery_area := sampleArea,
    sell_delivery_area := ⟨"ABC", .europeEic⟩, delivery_period := samplePeriod,
    execution_time := ⟨1704276000, some 0⟩, price := samplePrice,
    quantity := sampleEnergy, state := .active }

/-- Sample order detail (test constant `ORDER_DETAIL`). -/
def sampleOrderDetail : OrderDetail :=
  { order_id := 1, order := sampleOrder, state_detail := ⟨.active, .add, .user⟩,
    open_quantity := sampleEnergy, filled_quantity := ⟨.num 0 (-2)⟩,
    create_time := sampleStart, modification_time := sampleStart }

/-- Sample populated gridpool order filter (test constant). -/
def sampleGridpoolOrderFilter : GridpoolOrderFilter :=
  { order_states := some [.active, .canceled], side := some .buy,
    delivery_period := some samplePeriod, delivery_area := some sampleArea,
    tag := some "test" }

/-- Sample public trade filter (test constant). -/
def samplePublicTradeFilter : PublicTradeFilter :=
  { states := some [.active, .canceled], buy_delivery_area := some sampleArea,
    delivery_period := some samplePeriod }

/-- Sample update patch setting only the price (test constant). -/
def sampleUpdateOrder : UpdateOrder := { price := some samplePrice }


/-- Scenario delivery area of the end-to-end create-order test: "DE",
European EIC code type. -/
def scenarioDeliveryArea : DeliveryArea := ⟨"DE", .europeEic⟩

/-- Scenario start 2023-01-01T00:00:00+00:00 (epoch 1672531200). -/
def scenarioStart : PyDatetime := ⟨1672531200, some 0⟩

/-- Scenario 15-minute delivery period. -/
def scenarioPeriod : DeliveryPeriod := ⟨scenarioStart, 900⟩

/-- Scenario price of 50 EUR. -/
def scenarioPrice : Price := ⟨.num 50 0, .eur⟩

/-- Scenario quantity of 0.1 MWh. -/
def scenarioQuantity : Energy := ⟨.num 1 (-1)⟩

/-- Scenario order detail with which the mocked server answers
(`set_up_order_detail_response` of the test suite, order id 1, create and
modification times 2024-01-03T12:00:00+00:00). -/
def scenarioResponseDetail : OrderDetail :=
  { order_id := 1
    order :=
      { delivery_area := scenarioDeliveryArea, delivery_period := scenarioPeriod,
        type := .limit, side := .buy, price := scenarioPrice,
        quantity := scenarioQuantity, execution_option := some .aon }
    state_detail := ⟨.active, .add, .user⟩
    open_quantity := ⟨.num 500 (-2)⟩
    filled_quantity := ⟨.num 0 (-2)⟩
    create_time := ⟨1704283200, some 0⟩
    modification_time := ⟨1704283200, some 0⟩ }

/-- Scenario wire response carrying the mocked order detail. -/
def scenarioResponsePb : CreateGridpoolOrderResponse :=
  ⟨scenarioResponseDetail.to_pb⟩

/-- Scenario unary-call collaborator: answers every request with the mocked
response (the `AsyncMock` stub of the test suite). -/
def scenarioStub : CreateGridpoolOrderRequest → CreateGridpoolOrderResponse :=
  fun _ => scenarioResponsePb

/-- Scenario invocation: gridpool id 123, BUY LIMIT, 0.1 MWh at 50 EUR,
delivery area "DE", 15-minute period from 2023-01-01T00:00:00+00:00,
execution option AON. -/
def scenarioOut : List CreateGridpoolOrderRequest × Except Err OrderDetail :=
  create_gridpool_order 123 scenarioDeliveryArea scenarioPeriod
    OrderType.limit MarketSide.buy scenarioPrice scenarioQuantity
    (some OrderExecutionOption.aon) scenarioStub

/-- C1: for every domain type with both a to-wire and a from-wire conversion
(Price, Energy, DeliveryArea, DeliveryPeriod, Order, Trade, PublicTrade,
OrderDetail, GridpoolOrderFilter, PublicTradeFilter, UpdateOrder) and every
validly constructed instance `x`, `from_pb (to_pb x)` is equal to `x`
field-for-field (wrapped in `.ok` for the fallible decoders). -/
theorem claim1_roundtrip_conversions :
    (∀ p : Price, Price.from_pb p.to_pb = p) ∧
    (∀ e : Energy, Energy.from_pb e.to_pb = e) ∧
    (∀ a : DeliveryArea, a.wf = true → DeliveryArea.from_pb a.to_pb = .ok a) ∧
    (∀ dp : DeliveryPeriod, dp.wf = true →
      DeliveryPeriod.from_pb dp.to_pb = .ok dp) ∧
    (∀ o : Order, o.wf = true → Order.from_pb o.to_pb = .ok o) ∧
    (∀ t : Trade, t.wf = true → Trade.from_pb t.to_pb = .ok t) ∧
    (∀ t : PublicTrade, t.wf = true → PublicTrade.from_pb t.to_pb = .ok t) ∧
    (∀ d : OrderDetail, d.wf = true → OrderDetail.from_pb d.to_pb = .ok d) ∧
    (∀ f : GridpoolOrderFilter, f.wf = true →
      GridpoolOrderFilter.from_pb f.to_pb = .ok f) ∧
    (∀ f : PublicTradeFilter, f.wf = true →
      PublicTradeFilter.from_pb f.to_pb = .ok f) ∧
    (∀ u : UpdateOrder, u.wf = true → UpdateOrder.from_pb u.to_pb = u) :=
  ⟨price_roundtrip_pb, energy_roundtrip_pb, deliveryArea_roundtrip_pb,
   deliveryPeriod_roundtrip_pb, order_roundtrip_pb, trade_roundtrip_pb,
   publicTrade_roundtrip_pb, orderDetail_roundtrip_pb,
   gridpoolOrderFilter_roundtrip_pb, publicTradeFilter_roundtrip_pb,
   updateOrder_roundtrip_pb⟩

/-- Witness for C1: the round trips evaluated on the concrete sample
instances of the test suite. -/
theorem claim1_roundtrip_conversions_witness :
    Price.from_pb samplePrice.to_pb = samplePrice ∧
    Energy.from_pb sampleEnergy.to_pb = sampleEnergy ∧
    DeliveryArea.from_pb sampleArea.to_pb = .ok sampleArea ∧
    DeliveryPeriod.from_pb samplePeriod.to_pb = .ok samplePeriod ∧
    Order.from_pb sampleOrder.to_pb = .ok sampleOrder ∧
    Trade.from_pb sampleTrade.to_pb = .ok sampleTrade ∧
    PublicTrade.from_pb samplePublicTrade.to_pb = .ok samplePublicTrade ∧
    OrderDetail.from_pb sampleOrderDetail.to_pb = .ok sampleOrderDetail ∧
    GridpoolOrderFilter.from_pb sampleGridpoolOrderFilter.to_pb
      = .ok sampleGridpoolOrderFilter ∧
    PublicTradeFilter.from_pb samplePublicTradeFilter.to_pb
      = .ok samplePublicTradeFilter ∧
    UpdateOrder.from_pb sampleUpdateOrder.to_pb = sampleUpdateOrder :=
  ⟨claim1_roundtrip_conversions.1 samplePrice,
   claim1_roundtrip_conversions.2.1 sampleEnergy,
   claim1_roundtrip_conversions.2.2.1 sampleArea (by decide),
   claim1_roundtrip_conversions.2.2.2.1 samplePeriod (by decide),
   claim1_roundtrip_conversions.2.2.2.2.1 sampleOrder (by decide),
   claim1_roundtrip_conversions.2.2.2.2.2.1 sampleTrade (by decide),
   claim1_roundtrip_conversions.2.2.2.2.2.2.1 samplePublicTrade (by decide),
   claim1_roundtrip_conversions.2.2.2.2.2.2.2.1 sampleOrderDetail (by decide),
   claim1_roundtrip_conversions.2.2.2.2.2.2.2.2.1 sampleGridpoolOrderFilter
     (by decide),
   claim1_roundtrip_conversions.2.2.2.2.2.2.2.2.2.1 samplePublicTradeFilter
     (by decide),
   claim1_roundtrip_conversions.2.2.2.2.2.2.2.2.2.2 sampleUpdateOrder
     (by decide)⟩

/-- C4: the wire patch produced by `UpdateOrder.to_pb` marks a field present
exactly when the domain field is set; a patch with only the price set has
exactly one present field, and an empty patch has zero present fields. -/
theorem claim4_update_order_patch_sparsity :
    (∀ u : UpdateOrder,
      u.to_pb.price.isSome = u.price.isSome ∧
      u.to_pb.quantity.isSome = u.quantity.isSome ∧
      u.to_pb.valid_until.isSome = u.valid_until.isSome ∧
      u.to_pb.execution_option.isSome = u.execution_option.isSome ∧
      u.to_pb.tag.isSome = u.tag.isSome) ∧
    (∀ p : Price,
      (UpdateOrder.to_pb { price := some p }).presentFieldCount = 1) ∧
    (UpdateOrder.to_pb {}).presentFieldCount = 0 := by
  refine ⟨?_, fun p => rfl, rfl⟩
  intro u
  rcases u with ⟨pr, qt, vu, eo, tg⟩
  refine ⟨?_, ?_, ?_, ?_, rfl⟩ <;>
    first
      | (cases pr <;> rfl)
      | (cases qt <;> rfl)
      | (cases vu <;> rfl)
      | (cases eo <;> rfl)

/-- C5: the empty gridpool order filter converts to the wire filter with
every field unset, and that wire filter decodes back to the empty filter. -/
theorem claim5_empty_gridpool_filter :
    GridpoolOrderFilter.to_pb {} = ({} : GridpoolOrderFilterPb) ∧
    GridpoolOrderFilter.from_pb {} = .ok ({} : GridpoolOrderFilter) :=
  ⟨rfl, rfl⟩

/-- C10: a 5-minute duration is an accepted delivery-duration bucket, so a
`DeliveryPeriod` with a 5-minute duration is constructed successfully (both
from a UTC start and from a UTC+1 start, as in the test suite). -/
theorem claim10_five_minute_bucket :
    DeliveryDuration.fromTimedelta 300 = some .minutes5 ∧
    DeliveryPeriod.new ⟨1672531200, some 3600⟩ 300
      = .ok ⟨⟨1672527600, some 0⟩, 300⟩ ∧
    (DeliveryPeriod.new ⟨1672531200, some 0⟩ 300).isOk = true := by
  refine ⟨rfl, ?_, rfl⟩
  decide


/-- C2: for a non-negative maximum number of decimal places `n`,
`validate_decimal_places` fails with the `InvalidInput` kind (ValueError)
precisely when the value is NaN, infinite, or its scaling by `10 ^ n` is not
an integer; for every negative `n` it fails with an assertion failure
(AssertionError), not a recoverable input error. -/
theorem claim2_validate_decimal_places (v : Dec) (n : Int) (s : String) :
    (0 ≤ n →
      (validate_decimal_places v n s = .error .invalidInput ↔
        v = .nan ∨ (∃ b, v = .inf b) ∨
          ∃ m e, v = .num m e ∧
            ¬ ∃ z : Int, (m : ℚ) * (10 : ℚ) ^ (e + n) = (z : ℚ))) ∧
    (n < 0 → validate_decimal_places v n s = .error .assertionFailure) := by
  constructor
  · intro hn
    unfold validate_decimal_places
    rw [if_neg (by omega)]
    cases v with
    | nan => simp
    | inf b => simp
    | num m e =>
        dsimp only
        by_cases hs : scaledIsInteger m e n = true
        · rw [if_pos hs]
          have hz := (scaledIsInteger_iff m e n).mp hs
          simp only [Dec.num.injEq]
          constructor
          · intro h
            cases h
          · rintro (h | ⟨b, h⟩ | ⟨m2, e2, ⟨hm, he⟩, hnz⟩)
            · cases h
            · cases h
            · subst hm
              subst he
              exact absurd hz hnz
        · rw [if_neg hs]
          have hz : ¬ ∃ z : Int, (m : ℚ) * (10 : ℚ) ^ (e + n) = (z : ℚ) := by
            rw [← scaledIsInteger_iff]
            exact hs
          constructor
          · intro _
            exact Or.inr (Or.inr ⟨m, e, rfl, hz⟩)
          · intro _
            rfl
  · intro hn
    unfold validate_decimal_places
    rw [if_pos hn]

/-- Witness for C2: both failure kinds evaluated at the boundary inputs of
the test suite — 123.456 with two allowed decimal places is invalid input,
and a negative maximum is an assertion failure. -/
theorem claim2_validate_decimal_places_witness :
    (validate_decimal_places (.num 123456 (-3)) 2 "Test Value"
        = .error .invalidInput ↔
      Dec.num 123456 (-3) = .nan ∨ (∃ b, Dec.num 123456 (-3) = .inf b) ∨
        ∃ m e, Dec.num 123456 (-3) = .num m e ∧
          ¬ ∃ z : Int, (m : ℚ) * (10 : ℚ) ^ (e + 2) = (z : ℚ)) ∧
    validate_decimal_places (.num 12345 (-2)) (-1) "Test Value"
      = .error .assertionFailure :=
  ⟨(claim2_validate_decimal_places (.num 123456 (-3)) 2 "Test Value").1
     (by norm_num),
   (claim2_validate_decimal_places (.num 12345 (-2)) (-1) "Test Value").2
     (by norm_num)⟩


/-- C3: a naive start makes `DeliveryPeriod` construction fail with
`InvalidInput`; an aware start is normalized to UTC preserving the absolute
instant (for a same-day UTC+1 start the stored hour is one less); and
`OrderDetail` applies the same rule to its create and modification times. -/
theorem claim3_timezone_normalization :
    (∀ (start : PyDatetime) (d : Int), start.utcOffset = none →
      DeliveryPeriod.new start d = .error .invalidInput) ∧
    (∀ t u : PyDatetime, t.toUtc = .ok u →
      u.utcOffset = some 0 ∧ u.epochSeconds = t.epochSeconds) ∧
    (∀ (start : PyDatetime) (o d : Int), start.utcOffset = some o →
      (DeliveryDuration.fromTimedelta d).isSome = true →
      DeliveryPeriod.new start d
        = .ok ⟨⟨start.wallSeconds - o, some 0⟩, d⟩) ∧
    (∀ (start : PyDatetime) (d : Int) (dp : DeliveryPeriod),
      start.utcOffset = some 3600 → DeliveryPeriod.new start d = .ok dp →
      1 ≤ start.hour → dp.start.hour = start.hour - 1) ∧
    (∀ (oid : Nat) (ord : Order) (sd : StateDetail) (oq fq : Energy)
        (ct mt : PyDatetime), ct.utcOffset = none ∨ mt.utcOffset = none →
      OrderDetail.new oid ord sd oq fq ct mt = .error .invalidInput) ∧
    (∀ (oid : Nat) (ord : Order) (sd : StateDetail) (oq fq : Energy)
        (ct mt : PyDatetime) (c m : Int),
      ct.utcOffset = some c → mt.utcOffset = some m →
      OrderDetail.new oid ord sd oq fq ct mt =
        .ok { order_id := oid, order := ord, state_detail := sd,
              open_quantity := oq, filled_quantity := fq,
              create_time := ⟨ct.wallSeconds - c, some 0⟩,
              modification_time := ⟨mt.wallSeconds - m, some 0⟩ }) := by
  refine ⟨?_, ?_, ?_, ?_, ?_, ?_⟩
  · intro start d h
    exact deliveryPeriod_new_naive start d h
  · intro t u h
    unfold PyDatetime.toUtc at h
    cases htz : t.utcOffset with
    | none => rw [htz] at h; cases h
    | some o =>
        rw [htz] at h
        cases h
        simp [PyDatetime.epochSeconds, htz]
  · intro start o d h hb
    rw [deliveryPeriod_new_aware start o d h]
    obtain ⟨b, hbb⟩ := Option.isSome_iff_exists.mp hb
    rw [hbb]
  · intro start d dp h hnew hhour
    rw [deliveryPeriod_new_aware start 3600 d h] at hnew
    cases hb : DeliveryDuration.fromTimedelta d with
    | none => rw [hb] at hnew; cases hnew
    | some b =>
        rw [hb] at hnew
        cases hnew
        simp only [PyDatetime.hour] at hhour ⊢
        omega
  · intro oid ord sd oq fq ct mt h
    unfold OrderDetail.new PyDatetime.toUtc
    rcases h with h | h
    · rw [h]
    · cases hct : ct.utcOffset with
      | none => rfl
      | some c => rw [h]
  · intro oid ord sd oq fq ct mt c m hct hmt
    unfold OrderDetail.new PyDatetime.toUtc
    rw [hct, hmt]

/-- Witness for C3: the timezone rules evaluated at concrete inputs — a
naive start is rejected, a UTC+1 start at wall-clock hour 13 is stored with
hour 12, and an order detail with UTC+1 times is normalized. -/
theorem claim3_timezone_normalization_witness :
    DeliveryPeriod.new ⟨1672574400, none⟩ 900 = .error .invalidInput ∧
    DeliveryPeriod.new ⟨1672578000, some 3600⟩ 900
      = .ok ⟨⟨1672578000 - 3600, some 0⟩, 900⟩ ∧
    (⟨⟨1672574400, some 0⟩, 900⟩ : DeliveryPeriod).start.hour
      = (⟨1672578000, some 3600⟩ : PyDatetime).hour - 1 ∧
    OrderDetail.new 1 sampleOrder ⟨.active, .add, .user⟩ sampleEnergy
        ⟨.num 0 (-2)⟩ ⟨1672578000, some 3600⟩ ⟨1672578000, some 3600⟩ =
      .ok { order_id := 1, order := sampleOrder,
            state_detail := ⟨.active, .add, .user⟩,
            open_quantity := sampleEnergy, filled_quantity := ⟨.num 0 (-2)⟩,
            create_time := ⟨1672578000 - 3600, some 0⟩,
            modification_time := ⟨1672578000 - 3600, some 0⟩ } :=
  ⟨claim3_timezone_normalization.1 ⟨1672574400, none⟩ 900 rfl,
   claim3_timezone_normalization.2.2.1 ⟨1672578000, some 3600⟩ 3600 900 rfl
     (by decide),
   claim3_timezone_normalization.2.2.2.1 ⟨1672578000, some 3600⟩ 900
     ⟨⟨1672574400, some 0⟩, 900⟩ rfl (by decide) (by decide),
   claim3_timezone_normalization.2.2.2.2.2 1 sampleOrder ⟨.active, .add, .user⟩
     sampleEnergy ⟨.num 0 (-2)⟩ ⟨1672578000, some 3600⟩ ⟨1672578000, some 3600⟩
     3600 3600 rfl rfl⟩

/-- C7: a delivery period whose duration maps to an enumerated bucket is
constructed successfully (15 minutes succeeds); one whose duration matches
no bucket fails with `InvalidInput` (10 minutes fails). -/
theorem claim7_duration_bucket :
    (∀ (start : PyDatetime) (o d : Int), start.utcOffset = some o →
      (DeliveryDuration.fromTimedelta d).isSome = true →
      (DeliveryPeriod.new start d).isOk = true) ∧
    (∀ (start : PyDatetime) (d : Int), DeliveryDuration.fromTimedelta d = none →
      DeliveryPeriod.new start d = .error .invalidInput) ∧
    DeliveryPeriod.new ⟨1672531200, some 0⟩ 900
      = .ok ⟨⟨1672531200, some 0⟩, 900⟩ ∧
    DeliveryPeriod.new ⟨1672531200, some 0⟩ 600 = .error .invalidInput := by
  refine ⟨?_, ?_, ?_, by decide⟩
  · intro start o d h hb
    rw [deliveryPeriod_new_aware start o d h]
    obtain ⟨b, hbb⟩ := Option.isSome_iff_exists.mp hb
    rw [hbb]
    rfl
  · intro start d h
    cases hoff : start.utcOffset with
    | none => exact deliveryPeriod_new_naive start d hoff
    | some o =>
        rw [deliveryPeriod_new_aware start o d hoff, h]
  · decide

/-- Witness for C7: the bucket rule evaluated at a concrete aware start with
a 30-minute (accepted) and a 10-minute (rejected) duration. -/
theorem claim7_duration_bucket_witness :
    (DeliveryPeriod.new ⟨1672531200, some 0⟩ 1800).isOk = true ∧
    DeliveryPeriod.new ⟨1672531200, some 7200⟩ 600 = .error .invalidInput :=
  ⟨claim7_duration_bucket.1 ⟨1672531200, some 0⟩ 0 1800 rfl (by decide),
   claim7_duration_bucket.2.1 ⟨1672531200, some 7200⟩ 600 (by decide)⟩


/-- C6: every domain enum maps one-to-one with its known wire constants
(decoding the encoding of any variant gives the variant back), and every
wire value outside the known constants decodes to the explicit
`unspecified` variant instead of failing. -/
theorem claim6_enum_wire_mapping :
    ((∀ e : Currency, Currency.from_pb e.to_pb = e) ∧
      ∀ n : Nat, n ∉ [0, 1, 2, 3, 4, 5] → Currency.from_pb n = .unspecified) ∧
    ((∀ e : MarketSide, MarketSide.from_pb e.to_pb = e) ∧
      ∀ n : Nat, n ∉ [0, 1, 2] → MarketSide.from_pb n = .unspecified) ∧
    ((∀ e : OrderType, OrderType.from_pb e.to_pb = e) ∧
      ∀ n : Nat, n ∉ [0, 1, 2, 3] → OrderType.from_pb n = .unspecified) ∧
    ((∀ e : OrderState, OrderState.from_pb e.to_pb = e) ∧
      ∀ n : Nat, n ∉ [0, 1, 2, 3, 4, 5, 6] → OrderState.from_pb n = .unspecified) ∧
    ((∀ e : TradeState, TradeState.from_pb e.to_pb = e) ∧
      ∀ n : Nat, n ∉ [0, 1, 2, 3] → TradeState.from_pb n = .unspecified) ∧
    ((∀ e : OrderExecutionOption, OrderExecutionOption.from_pb e.to_pb = e) ∧
      ∀ n : Nat, n ∉ [0, 1, 2, 3] → OrderExecutionOption.from_pb n = .unspecified) ∧
    ((∀ e : EnergyMarketCodeType, EnergyMarketCodeType.from_pb e.to_pb = e) ∧
      ∀ n : Nat, n ∉ [0, 1, 2] → EnergyMarketCodeType.from_pb n = .unspecified) ∧
    ((∀ e : StateReason, StateReason.from_pb e.to_pb = e) ∧
      ∀ n : Nat, n ∉ [0, 1, 2, 3, 4, 5] → StateReason.from_pb n = .unspecified) ∧
    ((∀ e : MarketActor, MarketActor.from_pb e.to_pb = e) ∧
      ∀ n : Nat, n ∉ [0, 1, 2, 3] → MarketActor.from_pb n = .unspecified) :=
  ⟨⟨currency_from_to_pb, currency_from_pb_unknown⟩,
   ⟨marketSide_from_to_pb, marketSide_from_pb_unknown⟩,
   ⟨orderType_from_to_pb, orderType_from_pb_unknown⟩,
   ⟨orderState_from_to_pb, orderState_from_pb_unknown⟩,
   ⟨tradeState_from_to_pb, tradeState_from_pb_unknown⟩,
   ⟨orderExecutionOption_from_to_pb, orderExecutionOption_from_pb_unknown⟩,
   ⟨energyMarketCodeType_from_to_pb, energyMarketCodeType_from_pb_unknown⟩,
   ⟨stateReason_from_to_pb, stateReason_from_pb_unknown⟩,
   ⟨marketActor_from_to_pb, marketActor_from_pb_unknown⟩⟩

/-- Witness for C6: each enum decoder evaluated at the unrecognized wire
value 999, and a known-constant round trip for each enum. -/
theorem claim6_enum_wire_mapping_witness :
    Currency.from_pb Currency.eur.to_pb = Currency.eur ∧
    Currency.from_pb 999 = Currency.unspecified ∧
    MarketSide.from_pb MarketSide.buy.to_pb = MarketSide.buy ∧
    MarketSide.from_pb 999 = MarketSide.unspecified ∧
    OrderType.from_pb OrderType.limit.to_pb = OrderType.limit ∧
    OrderType.from_pb 999 = OrderType.unspecified ∧
    OrderState.from_pb OrderState.active.to_pb = OrderState.active ∧
    OrderState.from_pb 999 = OrderState.unspecified ∧
    TradeState.from_pb TradeState.active.to_pb = TradeState.active ∧
    TradeState.from_pb 999 = TradeState.unspecified ∧
    OrderExecutionOption.from_pb OrderExecutionOption.aon.to_pb
      = OrderExecutionOption.aon ∧
    OrderExecutionOption.from_pb 999 = OrderExecutionOption.unspecified ∧
    EnergyMarketCodeType.from_pb EnergyMarketCodeType.europeEic.to_pb
      = EnergyMarketCodeType.europeEic ∧
    EnergyMarketCodeType.from_pb 999 = EnergyMarketCodeType.unspecified ∧
    StateReason.from_pb StateReason.add.to_pb = StateReason.add ∧
    StateReason.from_pb 999 = StateReason.unspecified ∧
    MarketActor.from_pb MarketActor.user.to_pb = MarketActor.user ∧
    MarketActor.from_pb 999 = MarketActor.unspecified :=
  ⟨claim6_enum_wire_mapping.1.1 .eur,
   claim6_enum_wire_mapping.1.2 999 (by decide),
   claim6_enum_wire_mapping.2.1.1 .buy,
   claim6_enum_wire_mapping.2.1.2 999 (by decide),
   claim6_enum_wire_mapping.2.2.1.1 .limit,
   claim6_enum_wire_mapping.2.2.1.2 999 (by decide),
   claim6_enum_wire_mapping.2.2.2.1.1 .active,
   claim6_enum_wire_mapping.2.2.2.1.2 999 (by decide),
   claim6_enum_wire_mapping.2.2.2.2.1.1 .active,
   claim6_enum_wire_mapping.2.2.2.2.1.2 999 (by decide),
   claim6_enum_wire_mapping.2.2.2.2.2.1.1 .aon,
   claim6_enum_wire_mapping.2.2.2.2.2.1.2 999 (by decide),
   claim6_enum_wire_mapping.2.2.2.2.2.2.1.1 .europeEic,
   claim6_enum_wire_mapping.2.2.2.2.2.2.1.2 999 (by decide),
   claim6_enum_wire_mapping.2.2.2.2.2.2.2.1.1 .add,
   claim6_enum_wire_mapping.2.2.2.2.2.2.2.1.2 999 (by decide),
   claim6_enum_wire_mapping.2.2.2.2.2.2.2.2.1 .user,
   claim6_enum_wire_mapping.2.2.2.2.2.2.2.2.2 999 (by decide)⟩


/-- C8: for gridpool id 123 and the BUY LIMIT scenario order (0.1 MWh at
50 EUR, delivery area "DE" with EUROPE_EIC, 15-minute period from
2023-01-01T00:00:00+00:00, execution option AON), `create_gridpool_order`
issues exactly one outbound wire request whose gridpool id and nested order
fields equal the wire conversions of the inputs, and decodes the mocked
response into an `OrderDetail` whose order id equals the order id of the
response message. -/
theorem claim8_create_order_scenario :
    scenarioOut.1 =
      [⟨123,
        { delivery_area := scenarioDeliveryArea.to_pb
          delivery_period := scenarioPeriod.to_pb
          type := OrderType.limit.to_pb
          side := MarketSide.buy.to_pb
          price := scenarioPrice.to_pb
          quantity := scenarioQuantity.to_pb
          execution_option := some OrderExecutionOption.aon.to_pb
          valid_until := none
          tag := none }⟩] ∧
    scenarioOut.2 = .ok scenarioResponseDetail ∧
    scenarioResponseDetail.order_id = scenarioResponsePb.order_detail.order_id := by
  refine ⟨rfl, ?_, rfl⟩
  decide

/-- C9: a delivery area with a specified code type and an empty code is
rejected with `InvalidInput`, and every delivery area produced by the
constructor or by wire decoding satisfies the non-empty-code invariant. -/
theorem claim9_delivery_area_invariant :
    (∀ (code : String) (ct : EnergyMarketCodeType), ct ≠ .unspecified →
      code = "" → DeliveryArea.new code ct = .error .invalidInput) ∧
    (∀ (code : String) (ct : EnergyMarketCodeType) (a : DeliveryArea),
      DeliveryArea.new code ct = .ok a → a.wf = true) ∧
    (∀ (pb : DeliveryAreaPb) (a : DeliveryArea),
      DeliveryArea.from_pb pb = .ok a → a.wf = true) := by
  have key : ∀ (code : String) (ct : EnergyMarketCodeType) (a : DeliveryArea),
      DeliveryArea.new code ct = .ok a → a.wf = true := by
    intro code ct a h
    unfold DeliveryArea.new at h
    split_ifs at h with hc
    cases h
    simp only [DeliveryArea.wf, decide_eq_true_eq]
    push_neg at hc
    by_cases hct : ct = .unspecified
    · exact Or.inl hct
    · exact Or.inr (hc hct)
  refine ⟨?_, key, ?_⟩
  · intro code ct h1 h2
    unfold DeliveryArea.new
    rw [if_pos ⟨h1, h2⟩]
  · intro pb a h
    exact key _ _ _ h

/-- Witness for C9: the invariant evaluated at concrete inputs — an empty
code with the EIC code type is rejected, and a constructed area is well
formed. -/
theorem claim9_delivery_area_invariant_witness :
    DeliveryArea.new "" .europeEic = .error .invalidInput ∧
    sampleArea.wf = true :=
  ⟨claim9_delivery_area_invariant.1 "" .europeEic (by decide) rfl,
   claim9_delivery_area_invariant.2.1 "XYZ" .europeEic sampleArea (by decide)⟩

end ElectricityTrading
